import Mathlib

/-
Verification of the HackUTD sales-call assistant core: the windowed
transcription pipeline, the insight store, the call lifecycle state machine,
the end-of-call profile merge, and the two JavaScript helpers
(getRandomCustomer and the live-transcription log handler).
-/

/-! ## Transcript pipeline (TranscriptionWorker) -/

/-- Modelled from the spec: a TranscriptChunk `{ window_index, text, timestamp }`
produced by the TranscriptionWorker of the missing `sales_call_analyzer.py`;
the timestamp is omitted since only the window index orders chunks. -/
structure TranscriptChunk where
  window_index : Nat
  text : String
deriving DecidableEq

/-- Ordering of transcript chunks by their monotonic window index. -/
def chunkLE (a b : TranscriptChunk) : Prop :=
  a.window_index ≤ b.window_index

instance : DecidableRel chunkLE :=
  fun a b => inferInstanceAs (Decidable (a.window_index ≤ b.window_index))

instance : IsTotal TranscriptChunk chunkLE :=
  ⟨fun a b => Nat.le_total a.window_index b.window_index⟩

instance : IsTrans TranscriptChunk chunkLE :=
  ⟨fun _ _ _ hab hbc => Nat.le_trans hab hbc⟩

/-- Modelled from the spec: "a monotonic window index enforces reinsertion
order" — a completed transcription response is reinserted into the session
transcript at the position given by its window index. -/
def insertChunk (t : List TranscriptChunk) (c : TranscriptChunk) : List TranscriptChunk :=
  List.orderedInsert chunkLE c t

/-- Modelled from the spec: the session transcript obtained after all
transcription responses have arrived, in an arbitrary completion order. -/
def buildTranscript (arrivals : List TranscriptChunk) : List TranscriptChunk :=
  arrivals.foldl insertChunk []

/-! ## Insight store (InsightEngine results, shared session record) -/

/-- Modelled from the spec: an Insight `{ status, reason, recommendation, score }`. -/
structure Insight where
  status : String
  reason : String
  recommendation : String
  score : Nat
deriving DecidableEq

/-- Modelled from the spec: the shared insight field of the SessionRecord,
together with the window index of the last applied Insight. -/
structure InsightStore where
  lastIndex : Option Nat
  current : Option Insight
deriving DecidableEq

/-- Modelled from the spec: "each window's Insight write only overwrites the
shared store if its window index ≥ the index of the last applied Insight";
stale results are discarded by comparing window index. -/
def applyInsightResult (s : InsightStore) (idx : Nat) (ins : Insight) : InsightStore :=
  match s.lastIndex with
  | none => { lastIndex := some idx, current := some ins }
  | some j => if j ≤ idx then { lastIndex := some idx, current := some ins } else s

/-! ## Session lifecycle state machine (SessionController) -/

/-- Modelled from the spec: the SessionController states
`Idle → Active → Ending → Terminated`. -/
inductive SessionState where
  | Idle
  | Active
  | Ending
  | Terminated
deriving DecidableEq

/-- Modelled from the spec: events driving the SessionController. -/
inductive SessionEvent where
  | startCall
  | windowTick
  | recallCommand
  | endCommand
  | shutdownComplete
deriving DecidableEq

/-- Modelled from the spec: the SessionController transition function.
`recallCommand` re-announces the last insight without changing state;
`Terminated` is terminal. -/
def stepState : SessionState → SessionEvent → SessionState
  | SessionState.Idle, SessionEvent.startCall => SessionState.Active
  | SessionState.Active, SessionEvent.windowTick => SessionState.Active
  | SessionState.Active, SessionEvent.recallCommand => SessionState.Active
  | SessionState.Active, SessionEvent.endCommand => SessionState.Ending
  | SessionState.Ending, SessionEvent.shutdownComplete => SessionState.Terminated
  | s, _ => s

/-- Modelled from the spec and GRACEFUL_CALL_END.md "Graceful Shutdown Order":
the individual steps performed on the `Ending → Terminated` transition. -/
inductive ShutdownAction where
  | stopIdentityPolling
  | stopTranscriber
  | stopFacialAnalyzer
  | persistConversation
  | runProfileMerger
  | releaseResources
deriving DecidableEq

/-- Modelled from the spec and GRACEFUL_CALL_END.md: the ordered shutdown
sequence run by `analyzer.stop()` — stop every worker loop, persist the
ConversationRecord, run ProfileMerger only when a customer id was locked,
then release resources. -/
def shutdownSequence (enableFacial : Bool) (lockedId : Option String) : List ShutdownAction :=
  [ShutdownAction.stopIdentityPolling, ShutdownAction.stopTranscriber]
    ++ (if enableFacial then [ShutdownAction.stopFacialAnalyzer] else [])
    ++ [ShutdownAction.persistConversation]
    ++ (if lockedId.isSome then [ShutdownAction.runProfileMerger] else [])
    ++ [ShutdownAction.releaseResources]

/-! ## Per-window loop (InsightEngine failure handling) -/

/-- Modelled from the spec: the outcome of one reasoning-service call for a
window — a parsed Insight, a failed call, or a malformed response. -/
inductive ReasoningOutcome where
  | ok (ins : Insight)
  | failed
  | malformed
deriving DecidableEq

/-- Modelled from the spec: parsing a reasoning-service response; failed or
malformed responses yield nothing. -/
def parseReasoning : ReasoningOutcome → Option Insight
  | ReasoningOutcome.ok ins => some ins
  | ReasoningOutcome.failed => none
  | ReasoningOutcome.malformed => none

/-- Modelled from the spec: the in-memory session state touched by the
per-window loop. -/
structure WindowLoopState where
  phase : SessionState
  store : InsightStore
  transcript : List TranscriptChunk
deriving DecidableEq

/-- Modelled from the spec: one completed window of the Active self-transition.
The chunk is appended; a failed or malformed reasoning response is skipped
(the previous Insight stays authoritative) and the phase never changes, so no
per-window error can terminate the session. -/
def processWindow (s : WindowLoopState) (chunk : TranscriptChunk)
    (outcome : ReasoningOutcome) : WindowLoopState :=
  { phase := s.phase
    transcript := s.transcript ++ [chunk]
    store :=
      match parseReasoning outcome with
      | none => s.store
      | some ins => applyInsightResult s.store chunk.window_index ins }

/-! ## IdentitySync (sticky customer id) -/

/-- Modelled from the spec: one IdentitySync poll folds the freshly read
`current_customer_id` into the locally cached one; once a non-null id is
observed it is sticky for the remainder of the call. -/
def syncCustomerId (locked : Option String) (polled : Option String) : Option String :=
  match locked with
  | some c => some c
  | none => polled

/-- Modelled from the spec: running a sequence of IdentitySync polls from a
given locked state. -/
def runPolls (locked : Option String) (polls : List (Option String)) : Option String :=
  polls.foldl syncCustomerId locked

/-! ## ProfileMerger (end-of-call profile extraction and merge) -/

/-- Modelled from the spec: a stored CustomerProfile row of the `customers`
table. -/
structure CustomerProfile where
  customer_id : String
  name : Option String
  personal_details : List String
  professional_details : List String
  sales_context : List String
deriving DecidableEq

/-- Modelled from the spec: the structured profile extracted by the reasoning
service from the call transcript (`extract_customer_profile` of the missing
`sales_call_analyzer.py`); an absent name is the empty string. -/
structure ExtractedProfile where
  name : String
  personal_details : List String
  professional_details : List String
  sales_context : List String
deriving DecidableEq

/-- Modelled from the spec: "detail lists are unioned (set semantics —
duplicates dropped)" — each new entry is appended only when not already
present, preserving the stored order. -/
def mergeDetails (old new : List String) : List String :=
  new.foldl (fun acc x => if x ∈ acc then acc else acc ++ [x]) old

/-- Modelled from the spec: the ProfileMerger merge policy
(`save_customer_profile` of the missing `sales_call_analyzer.py`): detail
lists are unioned, sales_context entries are prepended newest-first, and the
name is overwritten only by a non-empty extracted value. -/
def mergeProfile (stored : CustomerProfile) (ext : ExtractedProfile) : CustomerProfile :=
  { customer_id := stored.customer_id
    name := if ext.name = "" then stored.name else some ext.name
    personal_details := mergeDetails stored.personal_details ext.personal_details
    professional_details := mergeDetails stored.professional_details ext.professional_details
    sales_context := ext.sales_context ++ stored.sales_context }

/-- Modelled from the spec: a fresh profile created on the first successful
extraction for a customer id. -/
def profileOfExtraction (cid : String) (ext : ExtractedProfile) : CustomerProfile :=
  { customer_id := cid
    name := if ext.name = "" then none else some ext.name
    personal_details := mergeDetails [] ext.personal_details
    professional_details := mergeDetails [] ext.professional_details
    sales_context := ext.sales_context }

/-- Modelled from the spec: upsert into the `customers` table — merge with the
existing profile for the id when present, otherwise create one. -/
def upsertProfile (profiles : List CustomerProfile) (cid : String)
    (ext : ExtractedProfile) : List CustomerProfile :=
  if profiles.any (fun p => p.customer_id == cid) then
    profiles.map (fun p => if p.customer_id == cid then mergeProfile p ext else p)
  else
    profiles ++ [profileOfExtraction cid ext]

/-! ## Call termination (ConversationRecord persistence) -/

/-- Modelled from the spec: a ConversationRecord
`{ customer_id, full_transcript, insights }`, one per completed call. -/
structure ConversationRecord where
  customer_id : Option String
  full_transcript : String
  insights : List Insight
deriving DecidableEq

/-- Modelled from the spec: the observable result of `stop()` — the persisted
ConversationRecord, the `customers` table after the call, whether a warning
was surfaced, and whether the stop failed with an error. -/
structure EndCallResult where
  record : ConversationRecord
  profiles : List CustomerProfile
  warning : Bool
  fatalError : Bool
deriving DecidableEq

/-- Modelled from the spec: the `stop()` method of the missing
`sales_call_analyzer.py`. The conversation is always saved; when no customer
id was ever locked, profile extraction is skipped entirely and a warning (not
an error) is surfaced. -/
def endCall (profiles : List CustomerProfile) (lockedId : Option String)
    (transcript : String) (insights : List Insight)
    (ext : ExtractedProfile) : EndCallResult :=
  match lockedId with
  | none =>
    { record := { customer_id := none, full_transcript := transcript, insights := insights }
      profiles := profiles
      warning := true
      fatalError := false }
  | some cid =>
    { record := { customer_id := some cid, full_transcript := transcript, insights := insights }
      profiles := upsertProfile profiles cid ext
      warning := false
      fatalError := false }

/-! ## Facial subsystem configuration -/

/-- Modelled from the spec: the pipeline components named in the system
overview. -/
inductive Component where
  | audioCaptureLoop
  | transcriptionWorker
  | facialSampler
  | emotionAggregator
  | identitySync
  | insightEngine
  | notificationChannel
deriving DecidableEq

/-- Modelled from the spec: an EmotionSummary
`{ dominant_label, distribution, trend }` reduced once per window. -/
structure EmotionSummary where
  dominant_label : String
  distribution : List (String × Nat)
  trend : String
deriving DecidableEq

/-- Modelled from the spec: the session configuration evaluated once at
session start; `enable_facial` is the switch at line 430 of the missing
`sales_call_analyzer.py`. -/
structure SessionConfig where
  enable_facial : Bool
deriving DecidableEq

/-- Modelled from the spec: the workers spun up on `Idle → Active`; the
FacialSampler is started only when the configuration enables it. -/
def startedWorkers (cfg : SessionConfig) : List Component :=
  [Component.audioCaptureLoop, Component.identitySync]
    ++ (if cfg.enable_facial then [Component.facialSampler] else [])

/-- Modelled from the spec: the components invoked on each completed window;
the EmotionAggregator runs only when the facial subsystem is enabled. -/
def windowInvocations (cfg : SessionConfig) : List Component :=
  [Component.transcriptionWorker]
    ++ (if cfg.enable_facial then [Component.emotionAggregator] else [])
    ++ [Component.insightEngine, Component.notificationChannel]

/-- Modelled from the spec: every component invocation of a whole session with
`n` completed windows — the start-up workers followed by the per-window
invocations. -/
def sessionTrace (cfg : SessionConfig) (n : Nat) : List Component :=
  startedWorkers cfg ++ ((List.range n).map (fun _ => windowInvocations cfg)).flatten

/-- Modelled from the spec: the context handed to one InsightEngine call. -/
structure InsightInput where
  transcript : List TranscriptChunk
  emotion : Option EmotionSummary
deriving DecidableEq

/-- Modelled from the spec: composing the InsightEngine prompt — the emotion
summary is attached only when the facial subsystem was enabled at session
start, never inferred per call. -/
def composeInsightInput (cfg : SessionConfig) (transcript : List TranscriptChunk)
    (em : EmotionSummary) : InsightInput :=
  { transcript := transcript
    emotion := if cfg.enable_facial then some em else none }

/-! ## supabase customer service (tmobile app, `getRandomCustomer`) -/

/-- A row of the Supabase `customers` table as read by the tmobile app's
customer service module; array and text columns may be null. -/
structure SupabaseCustomer where
  customer_id : String
  name : Option String
  personal_details : Option (List String)
  professional_details : Option (List String)
  sales_context : Option (List String)
deriving DecidableEq

/-- The customer object shape produced by `transformCustomer` and
`getFallbackCustomer`. -/
structure AppCustomer where
  id : String
  name : String
  accountNumber : String
  phoneNumber : String
  plan : String
  status : String
  accountAge : String
  monthlyBill : String
  dataUsage : String
  deviceModel : String
  lastPayment : String
  nextBillDate : String
  loyaltyPoints : Nat
  personalDetails : List String
  professionalDetails : List String
  salesContext : List String
deriving DecidableEq

/-- `.toString().padStart(4, '0')` applied to a natural number below 10000. -/
def padStartFourZeros (n : Nat) : String :=
  let s := toString n
  String.mk (List.replicate (4 - s.length) '0') ++ s

/-- `transformCustomer` from the customer service module; the JavaScript
`Math.floor(Math.random() * 10000)` for the account-number suffix is passed in
as `rand`, and `supabaseCustomer.name || supabaseCustomer.customer_id` treats
both null and the empty string as falsy. -/
def transformCustomer (rand : Nat) (c : SupabaseCustomer) : AppCustomer :=
  { id := c.customer_id
    name :=
      match c.name with
      | some s => if s = "" then c.customer_id else s
      | none => c.customer_id
    accountNumber := "****" ++ padStartFourZeros (rand % 10000)
    phoneNumber := "(555) XXX-XXXX"
    plan := "Magenta"
    status := "Standard"
    accountAge := "New"
    monthlyBill := "$70.00"
    dataUsage := "N/A"
    deviceModel := "Unknown"
    lastPayment := "N/A"
    nextBillDate := "N/A"
    loyaltyPoints := 0
    personalDetails := c.personal_details.getD []
    professionalDetails := c.professional_details.getD []
    salesContext := c.sales_context.getD [] }

/-- `getFallbackCustomer` from the customer service module. -/
def getFallbackCustomer : AppCustomer :=
  { id := "demo_user"
    name := "Demo Customer"
    accountNumber := "****0000"
    phoneNumber := "(555) 000-0000"
    plan := "Magenta"
    status := "Standard"
    accountAge := "New"
    monthlyBill := "$70.00"
    dataUsage := "N/A"
    deviceModel := "Unknown"
    lastPayment := "N/A"
    nextBillDate := "N/A"
    loyaltyPoints := 0
    personalDetails := ["No customer data available"]
    professionalDetails := []
    salesContext := ["Run a sales call to generate customer profile"] }

/-- The possible outcomes of the awaited Supabase query inside
`getRandomCustomer`: a response whose `data` may be null, a response with a
non-null `error`, or a thrown exception caught by the surrounding try/catch. -/
inductive CustomersQueryResult where
  | success (rows : Option (List SupabaseCustomer))
  | queryError
  | exception

/-- `getRandomCustomer` from the customer service module. `r` stands for the
`Math.floor(Math.random() * data.length)` draw (taken modulo the list length)
and `rand` for the random account-number suffix inside `transformCustomer`. -/
def getRandomCustomer (res : CustomersQueryResult) (r rand : Nat) : AppCustomer :=
  match res with
  | CustomersQueryResult.queryError => getFallbackCustomer
  | CustomersQueryResult.exception => getFallbackCustomer
  | CustomersQueryResult.success none => getFallbackCustomer
  | CustomersQueryResult.success (some rows) =>
    if h : rows = [] then getFallbackCustomer
    else
      transformCustomer rand
        (rows.get ⟨r % rows.length, Nat.mod_lt r (List.length_pos.mpr h)⟩)

/-! ## Web dashboard live-transcription log (frontend App.js) -/

/-- One entry of the dashboard's transcription log, as parsed from a
server-sent event. -/
structure TranscriptionEntry where
  text : String
  timestamp : String
deriving DecidableEq

/-- The `onmessage` handler of `startListening` in the frontend App.js:
`if (data.text)` guards the update (the empty string is falsy), and the state
update prepends the entry ahead of `prev.slice(0, 9)`. -/
def onSpeechMessage (prev : List TranscriptionEntry)
    (data : TranscriptionEntry) : List TranscriptionEntry :=
  if data.text = "" then prev else data :: prev.take 9

/-! ## Helper lemmas -/

theorem foldl_insertChunk_perm (l : List TranscriptChunk) :
    ∀ acc : List TranscriptChunk, (l.foldl insertChunk acc).Perm (acc ++ l) := by
  induction l with
  | nil => intro acc; simp
  | cons c l ih =>
    intro acc
    have h1 : (insertChunk acc c).Perm (c :: acc) := List.perm_orderedInsert chunkLE c acc
    have h2 := ih (insertChunk acc c)
    rw [List.foldl_cons]
    refine h2.trans ?_
    refine (h1.append_right l).trans ?_
    exact List.perm_middle.symm

theorem foldl_insertChunk_sorted (l : List TranscriptChunk) :
    ∀ acc : List TranscriptChunk, List.Sorted chunkLE acc →
      List.Sorted chunkLE (l.foldl insertChunk acc) := by
  induction l with
  | nil => intro acc h; simpa using h
  | cons c l ih =>
    intro acc h
    rw [List.foldl_cons]
    exact ih _ (h.orderedInsert c acc)

theorem runPolls_locked (c : String) (later : List (Option String)) :
    runPolls (some c) later = some c := by
  induction later with
  | nil => rfl
  | cons p later ih => simpa [runPolls, syncCustomerId] using ih

theorem mem_mergeDetails_left (new : List String) :
    ∀ acc : List String, ∀ x ∈ acc, x ∈ mergeDetails acc new := by
  induction new with
  | nil => intro acc x hx; exact hx
  | cons y new ih =>
    intro acc x hx
    simp only [mergeDetails, List.foldl_cons]
    by_cases hy : y ∈ acc
    · simpa [hy] using ih acc x hx
    · have : x ∈ acc ++ [y] := List.mem_append.mpr (Or.inl hx)
      simpa [hy] using ih (acc ++ [y]) x this

theorem mem_mergeDetails_right (new : List String) :
    ∀ acc : List String, ∀ x ∈ new, x ∈ mergeDetails acc new := by
  induction new with
  | nil => intro acc x hx; cases hx
  | cons y new ih =>
    intro acc x hx
    simp only [mergeDetails, List.foldl_cons]
    rcases List.mem_cons.mp hx with rfl | hx
    · by_cases hy : x ∈ acc
      · simpa [hy] using mem_mergeDetails_left new acc x hy
      · have : x ∈ acc ++ [x] := List.mem_append.mpr (Or.inr (List.mem_singleton.mpr rfl))
        simpa [hy] using mem_mergeDetails_left new (acc ++ [x]) x this
    · by_cases hy : y ∈ acc
      · simpa [hy] using ih acc x hx
      · simpa [hy] using ih (acc ++ [y]) x hx

theorem mergeDetails_eq_of_subset (new : List String) :
    ∀ acc : List String, (∀ x ∈ new, x ∈ acc) → mergeDetails acc new = acc := by
  induction new with
  | nil => intro acc _; rfl
  | cons y new ih =>
    intro acc h
    have hy : y ∈ acc := h y (List.mem_cons_self y new)
    simp only [mergeDetails, List.foldl_cons, if_pos hy]
    exact ih acc (fun x hx => h x (List.mem_cons_of_mem y hx))

theorem mergeDetails_nodup (new : List String) :
    ∀ acc : List String, acc.Nodup → (mergeDetails acc new).Nodup := by
  induction new with
  | nil => intro acc h; exact h
  | cons y new ih =>
    intro acc h
    simp only [mergeDetails, List.foldl_cons]
    by_cases hy : y ∈ acc
    · simpa [hy] using ih acc h
    · have : (acc ++ [y]).Nodup := by
        simp [List.nodup_append, h, hy]
      simpa [hy] using ih (acc ++ [y]) this

theorem mergeDetails_idem (old new : List String) :
    mergeDetails (mergeDetails old new) new = mergeDetails old new :=
  mergeDetails_eq_of_subset new (mergeDetails old new)
    (fun x hx => mem_mergeDetails_right new old x hx)

/-! ## Claim theorems -/

/-- C1: after all `N` transcription responses of a completed call have been
reinserted — in any completion order — the session transcript has exactly `N`
chunks whose window indices are exactly `0, 1, …, N-1`: strictly increasing,
no gaps, no duplicates. -/
theorem transcript_complete_ordered (N : Nat) (arrivals : List TranscriptChunk)
    (h : (arrivals.map TranscriptChunk.window_index).Perm (List.range N)) :
    (buildTranscript arrivals).map TranscriptChunk.window_index = List.range N ∧
    (buildTranscript arrivals).length = N := by
  have hperm : (buildTranscript arrivals).Perm arrivals := by
    simpa using foldl_insertChunk_perm arrivals []
  have hmap : ((buildTranscript arrivals).map TranscriptChunk.window_index).Perm
      (List.range N) := (hperm.map TranscriptChunk.window_index).trans h
  have hsorted : List.Sorted chunkLE (buildTranscript arrivals) :=
    foldl_insertChunk_sorted arrivals [] List.sorted_nil
  have hsorted2 : List.Sorted (fun a b => a ≤ b)
      ((buildTranscript arrivals).map TranscriptChunk.window_index) :=
    List.Pairwise.map TranscriptChunk.window_index (fun _ _ hab => hab) hsorted
  have heq : (buildTranscript arrivals).map TranscriptChunk.window_index = List.range N :=
    List.eq_of_perm_of_sorted hmap hsorted2 (List.sorted_le_range N)
  refine ⟨heq, ?_⟩
  have := congrArg List.length heq
  simpa using this

/-- C1 witness: three windows whose transcription responses complete in the
order 2, 0, 1 still yield a transcript indexed exactly 0, 1, 2. -/
theorem transcript_complete_ordered_witness :
    (([⟨2, "thanks"⟩, ⟨0, "hello"⟩, ⟨1, ""⟩] :
        List TranscriptChunk).map TranscriptChunk.window_index).Perm (List.range 3) ∧
      ((buildTranscript [⟨2, "thanks"⟩, ⟨0, "hello"⟩, ⟨1, ""⟩]).map
          TranscriptChunk.window_index = List.range 3 ∧
        (buildTranscript [⟨2, "thanks"⟩, ⟨0, "hello"⟩, ⟨1, ""⟩]).length = 3) :=
  ⟨by decide, transcript_complete_ordered 3 [⟨2, "thanks"⟩, ⟨0, "hello"⟩, ⟨1, ""⟩] (by decide)⟩

/-- C2: an Insight write is applied to the shared store only when its window
index is at least the index of the last applied Insight; a result for an
older window arriving after a newer one has been applied leaves the store
unchanged. -/
theorem insight_write_monotone (s : InsightStore) (idx j : Nat) (ins : Insight)
    (h : s.lastIndex = some j) :
    (idx < j → applyInsightResult s idx ins = s) ∧
    (j ≤ idx → applyInsightResult s idx ins =
      { lastIndex := some idx, current := some ins }) := by
  constructor
  · intro hlt
    simp [applyInsightResult, h, Nat.not_le.mpr hlt]
  · intro hle
    simp [applyInsightResult, h, hle]

/-- C2 witness: with window 3's insight applied last, a late result for
window 1 is discarded, while a result for window 3 or later would be applied. -/
theorem insight_write_monotone_witness :
    (InsightStore.mk (some 3) (some ⟨"Engaged", "asking questions", "ask about needs", 7⟩)).lastIndex
        = some 3 ∧
      ((1 < 3 →
          applyInsightResult
              (InsightStore.mk (some 3) (some ⟨"Engaged", "asking questions", "ask about needs", 7⟩))
              1 ⟨"Bored", "silence", "change topic", 2⟩ =
            InsightStore.mk (some 3) (some ⟨"Engaged", "asking questions", "ask about needs", 7⟩)) ∧
        (3 ≤ 1 →
          applyInsightResult
              (InsightStore.mk (some 3) (some ⟨"Engaged", "asking questions", "ask about needs", 7⟩))
              1 ⟨"Bored", "silence", "change topic", 2⟩ =
            InsightStore.mk (some 1) (some ⟨"Bored", "silence", "change topic", 2⟩))) :=
  ⟨rfl,
    insight_write_monotone
      (InsightStore.mk (some 3) (some ⟨"Engaged", "asking questions", "ask about needs", 7⟩))
      1 3 ⟨"Bored", "silence", "change topic", 2⟩ rfl⟩

/-- C5: once IdentitySync has locked a non-null customer id, every later poll
— null or a different id — leaves the locked id unchanged through call end. -/
theorem customer_id_sticky (polls later : List (Option String)) (c : String)
    (h : runPolls none polls = some c) :
    runPolls none (polls ++ later) = some c := by
  have : runPolls none (polls ++ later) = runPolls (runPolls none polls) later := by
    simp [runPolls, List.foldl_append]
  rw [this, h]
  exact runPolls_locked c later

/-- C5 witness: "P1" locked at the second poll survives a later null poll and
a later different id "P2". -/
theorem customer_id_sticky_witness :
    runPolls none [none, some "P1"] = some "P1" ∧
      runPolls none ([none, some "P1"] ++ [none, some "P2"]) = some "P1" :=
  ⟨by decide, customer_id_sticky [none, some "P1"] [none, some "P2"] "P1" (by decide)⟩

/-- C3 counterexample: merging the same extraction twice does not leave the
profile unchanged when the extraction carries a sales_context entry — the
entry is prepended again, so the merge is not idempotent on the whole
profile. -/
theorem mergeProfile_not_idempotent :
    mergeProfile
        (mergeProfile ⟨"P1", none, ["likes golf"], [], []⟩
          ⟨"", ["likes golf", "has two kids"], [], ["wants upgrade"]⟩)
        ⟨"", ["likes golf", "has two kids"], [], ["wants upgrade"]⟩ ≠
      mergeProfile ⟨"P1", none, ["likes golf"], [], []⟩
        ⟨"", ["likes golf", "has two kids"], [], ["wants upgrade"]⟩ := by
  decide

/-- C3 amended: the merge is an idempotent set union on the detail lists —
re-merging the same extraction leaves personal and professional details (and
the name and customer id) unchanged and both detail lists free of duplicates
— while sales_context entries are prepended newest-first on every merge, so a
second merge prepends them again. -/
theorem mergeProfile_idempotent_on_details (p : CustomerProfile) (e : ExtractedProfile)
    (hp : p.personal_details.Nodup) (hq : p.professional_details.Nodup) :
    (mergeProfile (mergeProfile p e) e).personal_details =
        (mergeProfile p e).personal_details ∧
      (mergeProfile (mergeProfile p e) e).professional_details =
        (mergeProfile p e).professional_details ∧
      (mergeProfile p e).personal_details.Nodup ∧
      (mergeProfile p e).professional_details.Nodup ∧
      (mergeProfile (mergeProfile p e) e).name = (mergeProfile p e).name ∧
      (mergeProfile (mergeProfile p e) e).customer_id = (mergeProfile p e).customer_id ∧
      (mergeProfile (mergeProfile p e) e).sales_context =
        e.sales_context ++ (mergeProfile p e).sales_context := by
  refine ⟨?_, ?_, ?_, ?_, ?_, rfl, rfl⟩
  · exact mergeDetails_idem p.personal_details e.personal_details
  · exact mergeDetails_idem p.professional_details e.professional_details
  · exact mergeDetails_nodup e.personal_details p.personal_details hp
  · exact mergeDetails_nodup e.professional_details p.professional_details hq
  · by_cases h : e.name = "" <;> simp [mergeProfile, h]

/-- C3 witness: the scenario of the spec — stored personal details
["likes golf"] merged twice with ["likes golf", "has two kids"] keeps the
detail lists fixed at ["likes golf", "has two kids"] with no duplicates. -/
theorem mergeProfile_idempotent_on_details_witness :
    (["likes golf"] : List String).Nodup ∧ ([] : List String).Nodup ∧
      ((mergeProfile
            (mergeProfile ⟨"P1", none, ["likes golf"], [], []⟩
              ⟨"John", ["likes golf", "has two kids"], [], ["wants upgrade"]⟩)
            ⟨"John", ["likes golf", "has two kids"], [], ["wants upgrade"]⟩).personal_details =
          (mergeProfile ⟨"P1", none, ["likes golf"], [], []⟩
            ⟨"John", ["likes golf", "has two kids"], [], ["wants upgrade"]⟩).personal_details ∧
        (mergeProfile
            (mergeProfile ⟨"P1", none, ["likes golf"], [], []⟩
              ⟨"John", ["likes golf", "has two kids"], [], ["wants upgrade"]⟩)
            ⟨"John", ["likes golf", "has two kids"], [], ["wants upgrade"]⟩).professional_details =
          (mergeProfile ⟨"P1", none, ["likes golf"], [], []⟩
            ⟨"John", ["likes golf", "has two kids"], [], ["wants upgrade"]⟩).professional_details ∧
        (mergeProfile ⟨"P1", none, ["likes golf"], [], []⟩
          ⟨"John", ["likes golf", "has two kids"], [], ["wants upgrade"]⟩).personal_details.Nodup ∧
        (mergeProfile ⟨"P1", none, ["likes golf"], [], []⟩
          ⟨"John", ["likes golf", "has two kids"], [],
            ["wants upgrade"]⟩).professional_details.Nodup ∧
        (mergeProfile
            (mergeProfile ⟨"P1", none, ["likes golf"], [], []⟩
              ⟨"John", ["likes golf", "has two kids"], [], ["wants upgrade"]⟩)
            ⟨"John", ["likes golf", "has two kids"], [], ["wants upgrade"]⟩).name =
          (mergeProfile ⟨"P1", none, ["likes golf"], [], []⟩
            ⟨"John", ["likes golf", "has two kids"], [], ["wants upgrade"]⟩).name ∧
        (mergeProfile
            (mergeProfile ⟨"P1", none, ["likes golf"], [], []⟩
              ⟨"John", ["likes golf", "has two kids"], [], ["wants upgrade"]⟩)
            ⟨"John", ["likes golf", "has two kids"], [], ["wants upgrade"]⟩).customer_id =
          (mergeProfile ⟨"P1", none, ["likes golf"], [], []⟩
            ⟨"John", ["likes golf", "has two kids"], [], ["wants upgrade"]⟩).customer_id ∧
        (mergeProfile
            (mergeProfile ⟨"P1", none, ["likes golf"], [], []⟩
              ⟨"John", ["likes golf", "has two kids"], [], ["wants upgrade"]⟩)
            ⟨"John", ["likes golf", "has two kids"], [], ["wants upgrade"]⟩).sales_context =
          ["wants upgrade"] ++
            (mergeProfile ⟨"P1", none, ["likes golf"], [], []⟩
              ⟨"John", ["likes golf", "has two kids"], [], ["wants upgrade"]⟩).sales_context) :=
  ⟨by decide, by decide,
    mergeProfile_idempotent_on_details ⟨"P1", none, ["likes golf"], [], []⟩
      ⟨"John", ["likes golf", "has two kids"], [], ["wants upgrade"]⟩ (by decide) (by decide)⟩

/-- C4: when no customer id was ever locked, call termination skips the
profile merge entirely — the stored profiles are untouched — surfaces a
warning rather than an error, and still persists the ConversationRecord with
a null customer id and the full transcript. -/
theorem end_call_without_identity (profiles : List CustomerProfile)
    (transcript : String) (insights : List Insight) (ext : ExtractedProfile) :
    (endCall profiles none transcript insights ext).profiles = profiles ∧
      (endCall profiles none transcript insights ext).record.customer_id = none ∧
      (endCall profiles none transcript insights ext).record.full_transcript = transcript ∧
      (endCall profiles none transcript insights ext).record.insights = insights ∧
      (endCall profiles none transcript insights ext).warning = true ∧
      (endCall profiles none transcript insights ext).fatalError = false :=
  ⟨rfl, rfl, rfl, rfl, rfl, rfl⟩

/-- C6: the Ending-to-Terminated shutdown runs in order — every worker stop
(transcriber, identity polling, and the facial loop when enabled) precedes
persisting the ConversationRecord, ProfileMerger runs exactly when a customer
id was locked and only after persistence, resource release comes last — and
no transition leaves Terminated. -/
theorem shutdown_order_and_terminal (enableFacial : Bool) (lockedId : Option String) :
    (∀ e : SessionEvent, stepState SessionState.Terminated e = SessionState.Terminated) ∧
      (shutdownSequence enableFacial lockedId).indexOf ShutdownAction.stopIdentityPolling <
        (shutdownSequence enableFacial lockedId).indexOf ShutdownAction.persistConversation ∧
      (shutdownSequence enableFacial lockedId).indexOf ShutdownAction.stopTranscriber <
        (shutdownSequence enableFacial lockedId).indexOf ShutdownAction.persistConversation ∧
      (ShutdownAction.stopFacialAnalyzer ∈ shutdownSequence enableFacial lockedId ↔
        enableFacial = true) ∧
      (enableFacial = true →
        (shutdownSequence enableFacial lockedId).indexOf ShutdownAction.stopFacialAnalyzer <
          (shutdownSequence enableFacial lockedId).indexOf ShutdownAction.persistConversation) ∧
      (ShutdownAction.runProfileMerger ∈ shutdownSequence enableFacial lockedId ↔
        lockedId.isSome = true) ∧
      (lockedId.isSome = true →
        (shutdownSequence enableFacial lockedId).indexOf ShutdownAction.persistConversation <
            (shutdownSequence enableFacial lockedId).indexOf ShutdownAction.runProfileMerger ∧
          (shutdownSequence enableFacial lockedId).indexOf ShutdownAction.runProfileMerger <
            (shutdownSequence enableFacial lockedId).indexOf ShutdownAction.releaseResources) ∧
      (shutdownSequence enableFacial lockedId).getLast? =
        some ShutdownAction.releaseResources := by
  have hterm : ∀ e : SessionEvent, stepState SessionState.Terminated e = SessionState.Terminated := by
    intro e; cases e <;> rfl
  refine ⟨hterm, ?_⟩
  cases enableFacial <;> rcases lockedId with _ | s <;>
    simp only [shutdownSequence, Option.isSome_some, Option.isSome_none] <;> decide

/-- C6 witness: the shutdown order at a facial-enabled call with locked
customer "P1". -/
theorem shutdown_order_and_terminal_witness :
    (∀ e : SessionEvent, stepState SessionState.Terminated e = SessionState.Terminated) ∧
      (shutdownSequence true (some "P1")).indexOf ShutdownAction.stopIdentityPolling <
        (shutdownSequence true (some "P1")).indexOf ShutdownAction.persistConversation ∧
      (shutdownSequence true (some "P1")).indexOf ShutdownAction.stopTranscriber <
        (shutdownSequence true (some "P1")).indexOf ShutdownAction.persistConversation ∧
      (ShutdownAction.stopFacialAnalyzer ∈ shutdownSequence true (some "P1") ↔ true = true) ∧
      (true = true →
        (shutdownSequence true (some "P1")).indexOf ShutdownAction.stopFacialAnalyzer <
          (shutdownSequence true (some "P1")).indexOf ShutdownAction.persistConversation) ∧
      (ShutdownAction.runProfileMerger ∈ shutdownSequence true (some "P1") ↔
        (some "P1").isSome = true) ∧
      ((some "P1").isSome = true →
        (shutdownSequence true (some "P1")).indexOf ShutdownAction.persistConversation <
            (shutdownSequence true (some "P1")).indexOf ShutdownAction.runProfileMerger ∧
          (shutdownSequence true (some "P1")).indexOf ShutdownAction.runProfileMerger <
            (shutdownSequence true (some "P1")).indexOf ShutdownAction.releaseResources) ∧
      (shutdownSequence true (some "P1")).getLast? = some ShutdownAction.releaseResources :=
  shutdown_order_and_terminal true (some "P1")

/-- C7: a window whose reasoning-service call fails or returns a malformed
response leaves the previously applied Insight authoritative in the shared
store, while the session phase is unchanged — the loop continues to the next
window, so no per-window error terminates the session. -/
theorem window_failure_keeps_last_insight (s : WindowLoopState) (chunk : TranscriptChunk)
    (outcome : ReasoningOutcome) :
    (processWindow s chunk outcome).phase = s.phase ∧
      ((processWindow s chunk outcome).phase = SessionState.Terminated →
        s.phase = SessionState.Terminated) ∧
      (parseReasoning outcome = none → (processWindow s chunk outcome).store = s.store) ∧
      (processWindow s chunk outcome).transcript = s.transcript ++ [chunk] := by
  refine ⟨rfl, ?_, ?_, rfl⟩
  · intro h; exact h
  · intro h
    simp [processWindow, h]

/-- C7 witness: a failed reasoning call at window 2 of an active session
leaves the store holding window 1's insight and the session active. -/
theorem window_failure_keeps_last_insight_witness :
    (processWindow
          ⟨SessionState.Active, ⟨some 1, some ⟨"Engaged", "r", "s", 7⟩⟩, [⟨0, "hello"⟩, ⟨1, "more"⟩]⟩
          ⟨2, "thanks"⟩ ReasoningOutcome.failed).phase = SessionState.Active ∧
      ((processWindow
            ⟨SessionState.Active, ⟨some 1, some ⟨"Engaged", "r", "s", 7⟩⟩,
              [⟨0, "hello"⟩, ⟨1, "more"⟩]⟩
            ⟨2, "thanks"⟩ ReasoningOutcome.failed).phase = SessionState.Terminated →
        SessionState.Active = SessionState.Terminated) ∧
      (parseReasoning ReasoningOutcome.failed = none →
        (processWindow
              ⟨SessionState.Active, ⟨some 1, some ⟨"Engaged", "r", "s", 7⟩⟩,
                [⟨0, "hello"⟩, ⟨1, "more"⟩]⟩
              ⟨2, "thanks"⟩ ReasoningOutcome.failed).store =
          ⟨some 1, some ⟨"Engaged", "r", "s", 7⟩⟩) ∧
      (processWindow
            ⟨SessionState.Active, ⟨some 1, some ⟨"Engaged", "r", "s", 7⟩⟩,
              [⟨0, "hello"⟩, ⟨1, "more"⟩]⟩
            ⟨2, "thanks"⟩ ReasoningOutcome.failed).transcript =
        [⟨0, "hello"⟩, ⟨1, "more"⟩] ++ [⟨2, "thanks"⟩] :=
  window_failure_keeps_last_insight
    ⟨SessionState.Active, ⟨some 1, some ⟨"Engaged", "r", "s", 7⟩⟩, [⟨0, "hello"⟩, ⟨1, "more"⟩]⟩
    ⟨2, "thanks"⟩ ReasoningOutcome.failed

/-- C8: with `enable_facial = false` fixed by the configuration at session
start, neither the FacialSampler nor the EmotionAggregator ever appears in
the session's invocation trace, for any number of windows, and every
InsightEngine call is composed with transcript-only context. -/
theorem facial_disabled_transcript_only (cfg : SessionConfig)
    (h : cfg.enable_facial = false) :
    (∀ n : Nat, Component.facialSampler ∉ sessionTrace cfg n ∧
      Component.emotionAggregator ∉ sessionTrace cfg n) ∧
    (∀ (t : List TranscriptChunk) (em : EmotionSummary),
      (composeInsightInput cfg t em).emotion = none) := by
  constructor
  · intro n
    constructor <;>
      simp [sessionTrace, startedWorkers, windowInvocations, h, List.mem_flatten]
  · intro t em
    simp [composeInsightInput, h]

/-- C8 witness: a facial-disabled two-window session never invokes the facial
components and hands the InsightEngine no emotion summary. -/
theorem facial_disabled_transcript_only_witness :
    (SessionConfig.mk false).enable_facial = false ∧
      Component.facialSampler ∉ sessionTrace (SessionConfig.mk false) 2 ∧
      Component.emotionAggregator ∉ sessionTrace (SessionConfig.mk false) 2 ∧
      (composeInsightInput (SessionConfig.mk false) [⟨0, "hello"⟩]
          ⟨"happy", [("happy", 75)], "improving"⟩).emotion = none :=
  ⟨rfl,
    ((facial_disabled_transcript_only (SessionConfig.mk false) rfl).1 2).1,
    ((facial_disabled_transcript_only (SessionConfig.mk false) rfl).1 2).2,
    (facial_disabled_transcript_only (SessionConfig.mk false) rfl).2 [⟨0, "hello"⟩]
      ⟨"happy", [("happy", 75)], "improving"⟩⟩

/-- C9: getRandomCustomer is total over all collaborator outcomes — a query
error, a thrown exception, and a null or empty result list all return the
demo fallback customer whose id is "demo_user", while a non-empty result list
yields the transformed record of one of its elements. -/
theorem getRandomCustomer_total_fallback (r rand : Nat) :
    getRandomCustomer CustomersQueryResult.queryError r rand = getFallbackCustomer ∧
      getRandomCustomer CustomersQueryResult.exception r rand = getFallbackCustomer ∧
      getRandomCustomer (CustomersQueryResult.success none) r rand = getFallbackCustomer ∧
      getRandomCustomer (CustomersQueryResult.success (some [])) r rand = getFallbackCustomer ∧
      getFallbackCustomer.id = "demo_user" ∧
      ∀ rows : List SupabaseCustomer, rows ≠ [] →
        ∃ c ∈ rows,
          getRandomCustomer (CustomersQueryResult.success (some rows)) r rand =
            transformCustomer rand c := by
  refine ⟨rfl, rfl, rfl, rfl, rfl, ?_⟩
  intro rows hne
  refine ⟨rows.get ⟨r % rows.length, Nat.mod_lt r (List.length_pos.mpr hne)⟩,
    List.get_mem rows _ _, ?_⟩
  exact dif_neg hne

/-- C9 witness: a one-row result list yields the transformed record of that
row. -/
theorem getRandomCustomer_total_fallback_witness :
    ([⟨"P1", some "John", some ["likes golf"], none, none⟩] : List SupabaseCustomer) ≠ [] ∧
      ∃ c ∈ ([⟨"P1", some "John", some ["likes golf"], none, none⟩] : List SupabaseCustomer),
        getRandomCustomer
            (CustomersQueryResult.success
              (some [⟨"P1", some "John", some ["likes golf"], none, none⟩])) 5 7 =
          transformCustomer 7 c :=
  ⟨List.cons_ne_nil _ _,
    (getRandomCustomer_total_fallback 5 7).2.2.2.2.2
      [⟨"P1", some "John", some ["likes golf"], none, none⟩] (List.cons_ne_nil _ _)⟩

/-- C10: for every received transcription message with non-empty text, the
dashboard handler prepends the new entry ahead of at most the previous nine,
so the log has length at most ten and its first element is the entry just
received. -/
theorem transcription_log_bounded (prev : List TranscriptionEntry)
    (d : TranscriptionEntry) (h : d.text ≠ "") :
    onSpeechMessage prev d = d :: prev.take 9 ∧
      (onSpeechMessage prev d).length ≤ 10 ∧
      (onSpeechMessage prev d).head? = some d := by
  have he : onSpeechMessage prev d = d :: prev.take 9 := if_neg h
  refine ⟨he, ?_, by rw [he]; rfl⟩
  rw [he]
  simp only [List.length_cons, List.length_take]
  omega

/-- C10 witness: a "hello" message prepended to an empty log gives a
one-entry log headed by it. -/
theorem transcription_log_bounded_witness :
    (TranscriptionEntry.mk "hello" "10:00").text ≠ "" ∧
      (onSpeechMessage [] ⟨"hello", "10:00"⟩ =
          ⟨"hello", "10:00"⟩ :: ([] : List TranscriptionEntry).take 9 ∧
        (onSpeechMessage [] ⟨"hello", "10:00"⟩).length ≤ 10 ∧
        (onSpeechMessage [] ⟨"hello", "10:00"⟩).head? = some ⟨"hello", "10:00"⟩) :=
  ⟨by decide, transcription_log_bounded [] ⟨"hello", "10:00"⟩ (by decide)⟩
